import Mathlib

/-! Formal model of velbus/controller.py (python-velbus): the Controller hub, its
scan state machine, registry updates and subscriber dispatch. The embedding is
shallow: methods become functions on an explicit Controller state, a Python
exception becomes an explicit error component of the result, and Python
dynamic-typing failures that the source actually runs into (str + int
concatenation, attribute lookup on a tuple) are modelled by operations that
return those errors. Calls the controller makes to its collaborators (the
connection, the parser, the scan callback) are recorded in transcript fields. -/

namespace Velbus

/-- Python exceptions that the controller code can raise. -/
inductive PyErr where
  | exception : String → PyErr
  | typeError : String → PyErr
  | attributeError : String → PyErr
  | valueError : String → PyErr
  | assertionError : String → PyErr
  | keyError : String → PyErr
deriving DecidableEq

/-- A module object as constructed by velbus.ModuleRegistry[name](m_type, name,
address, self) in new_message (controller.py line 162). -/
structure Module where
  m_type : Nat
  name : String
  address : Nat
deriving DecidableEq

/-- Decoded bus messages, by the isinstance classification new_message performs
(controller.py lines 145-165). A ModuleTypeMessage exposes module_name(),
module_type and address; the name the external decoder would return is carried
in the moduleType constructor. All remaining message types are `other`. -/
inductive Message where
  | busActive
  | receiveReady
  | busOff
  | receiveBufferFull
  | moduleType (name : String) (m_type : Nat) (address : Nat)
  | other (tag : Nat)
deriving DecidableEq

/-- Python values handed to the public feed method; bytes payloads are lists of
byte values, the other constructors model arguments of the wrong type. -/
inductive PyVal where
  | bytes : List Nat → PyVal
  | str : String → PyVal
  | int : Int → PyVal
  | pynone : PyVal
deriving DecidableEq

/-- The static MODULE_CATEGORIES table (controller.py lines 8-11). -/
def MODULE_CATEGORIES : List (String × List String) :=
  [("switch", ["VMB4RYLD", "VMB4RYNO"]),
   ("binary_sensor", ["VMB6IN", "VMB7IN"])]

/-- Controller state (fields set in __init__, controller.py lines 39-47).
`modules` is the Python dict self._modules as an insertion-ordered association
list; `scan_callback` is self.__scan_callback (none models Python None, some cb
a callable identity). The transcript fields record the controller's outgoing
effects: `sent` the connection.send calls as (address, carries the
scan_finished completion callback), `parser_fed` the chunks passed to
self.parser.feed, and `fired` the invocations of the stored scan callback. -/
structure Controller where
  subscribers : List Nat
  scan_callback : Option Nat
  modules : List (Nat × Module)
  modules_loaded : Nat
  sent : List (Nat × Bool)
  parser_fed : List (List Nat)
  fired : List Nat
deriving DecidableEq

/-- The state __init__ leaves a fresh Controller in. -/
def initController : Controller :=
  { subscribers := [], scan_callback := none, modules := [], modules_loaded := 0,
    sent := [], parser_fed := [], fired := [] }

/-- feed_parser (controller.py lines 49-56): assert isinstance(data, bytes),
then self.parser.feed(data). The chunk handed to the parser is recorded
unchanged in parser_fed; a non-bytes argument fails the assert before anything
is forwarded. -/
def feedParser (c : Controller) (data : PyVal) : Controller × Except PyErr Unit :=
  match data with
  | PyVal.bytes b =>
      ({ c with parser_fed := c.parser_fed ++ [b] }, Except.ok ())
  | _ => (c, Except.error (PyErr.assertionError "isinstance(data, bytes)"))

/-- subscribe (controller.py lines 58-62): self.__subscribers.append(subscriber). -/
def subscribe (c : Controller) (s : Nat) : Controller :=
  { c with subscribers := c.subscribers ++ [s] }

def removeErrMsg : String := "list.remove(x): x not in list"

/-- Python list.remove: removes the first occurrence of x, raises ValueError
when x is absent. -/
def pyListRemove (l : List Nat) (x : Nat) : Except PyErr (List Nat) :=
  match l with
  | [] => Except.error (PyErr.valueError removeErrMsg)
  | a :: rest =>
      if a = x then Except.ok rest
      else
        match pyListRemove rest x with
        | Except.ok l2 => Except.ok (a :: l2)
        | Except.error e => Except.error e

/-- unsubscribe (controller.py lines 70-74): self.__subscribers.remove(subscriber). -/
def unsubscribe (c : Controller) (s : Nat) : Controller × Except PyErr Unit :=
  match pyListRemove c.subscribers s with
  | Except.ok l => ({ c with subscribers := l }, Except.ok ())
  | Except.error e => (c, Except.error e)

def tupleAttrMsg : String := "tuple object has no attribute get_module_name"

/-- The attribute access module.get_module_name() performed by get_modules on an
element of self._modules.items() (controller.py line 90): items() yields
(address, Module) tuples and a tuple has no attribute get_module_name, so the
access raises AttributeError. -/
def items_get_module_name (_m : Nat × Module) : Except PyErr String :=
  Except.error (PyErr.attributeError tupleAttrMsg)

/-- Association-list lookup backing the category table subscript. -/
def assocLookup : List (String × List String) → String → Option (List String)
  | [], _ => none
  | (k, v) :: rest, key => if k = key then some v else assocLookup rest key

/-- The Python subscript MODULE_CATEGORIES[category]: KeyError when absent. -/
def categoriesGet (category : String) : Except PyErr (List String) :=
  match assocLookup MODULE_CATEGORIES category with
  | some l => Except.ok l
  | none => Except.error (PyErr.keyError category)

/-- The loop body of get_modules (controller.py lines 89-91): for each element
of self._modules.items(), evaluate module.get_module_name() (left operand
first, so its AttributeError precedes any KeyError from the category
subscript), then MODULE_CATEGORIES[category], and append on membership. -/
def get_modules_loop (category : String) (items : List (Nat × Module))
    (result : List (Nat × Module)) : Except PyErr (List (Nat × Module)) :=
  match items with
  | [] => Except.ok result
  | module :: rest =>
      match items_get_module_name module with
      | Except.error e => Except.error e
      | Except.ok nm =>
          match categoriesGet category with
          | Except.error e => Except.error e
          | Except.ok cats =>
              if nm ∈ cats then get_modules_loop category rest (result ++ [module])
              else get_modules_loop category rest result

/-- get_modules (controller.py lines 82-92). -/
def get_modules (c : Controller) (category : String) :
    Except PyErr (List (Nat × Module)) :=
  get_modules_loop category c.modules []

/-- Python dict assignment self._modules[address] = module: replaces the value
in place when the key exists (keeping its position), else appends. -/
def dictSet : List (Nat × Module) → Nat → Module → List (Nat × Module)
  | [], a, m => [(a, m)]
  | (k, v) :: rest, a, m =>
      if k = a then (k, m) :: rest else (k, v) :: dictSet rest a m

/-- Python dict lookup self._modules[address]. -/
def dictLookup : List (Nat × Module) → Nat → Option Module
  | [], _ => none
  | (k, v) :: rest, a => if k = a then some v else dictLookup rest a

/-- new_message (controller.py lines 140-167). Bus-active, receive-ready,
bus-off and buffer-full messages are logged only. A ModuleTypeMessage whose
decoded name is Unknown is logged and the method returns before the subscriber
loop (line 160). A name present in velbus.ModuleRegistry (modelled by the
moduleRegistry list of supported names) constructs a Module and assigns
self._modules[address] = module; an unsupported name is logged only. Finally
every subscriber is called with the message: the second component is the list
of (subscriber, delivered message) notifications in order. -/
def new_message (moduleRegistry : List String) (c : Controller) (msg : Message) :
    Controller × List (Nat × Message) :=
  match msg with
  | Message.moduleType name m_type address =>
      if name = "Unknown" then
        (c, [])
      else
        let c2 :=
          if name ∈ moduleRegistry then
            { c with modules := dictSet c.modules address (Module.mk m_type name address) }
          else c
        (c2, c2.subscribers.map (fun s => (s, msg)))
  | _ => (c, c.subscribers.map (fun s => (s, msg)))

def scanBusyMsg : String := "Scan already in progress, wait till finished"

/-- scan (controller.py lines 94-128): raise when self.__scan_callback is
truthy, else store the callback and send a ModuleTypeRequestMessage for every
address 0..255, the one for address 255 carrying scan_finished as completion
callback. When it raises, the state is returned unchanged and nothing is
sent. -/
def scan (c : Controller) (callback : Option Nat) : Controller × Except PyErr Unit :=
  if c.scan_callback.isSome then
    (c, Except.error (PyErr.exception scanBusyMsg))
  else
    let c1 := { c with scan_callback := callback }
    let c2 := { c1 with sent := c1.sent ++ (List.range 256).map (fun a => (a, a == 255)) }
    (c2, Except.ok ())

def concatTypeErrMsg : String := "can only concatenate str (not int) to str"

/-- Python string concatenation whose right operand is an int, as written in
module_loaded's logging call (controller.py line 110): str.__add__ raises
TypeError. -/
def pyStrAddNat (_s : String) (_n : Nat) : Except PyErr String :=
  Except.error (PyErr.typeError concatTypeErrMsg)

/-- The nested module_loaded closure (controller.py lines 104-112): increment
self._modules_loaded, take nb_modules = len(self._modules.items()), evaluate
the logging argument (a str + int concatenation, raising TypeError), and only
then compare the count and call self.__scan_callback(). A firing of the stored
callback is recorded in the fired transcript. -/
def module_loaded (c : Controller) : Controller × Except PyErr Unit :=
  let c1 := { c with modules_loaded := c.modules_loaded + 1 }
  let nb_modules := c1.modules.length
  match pyStrAddNat "Module loaded (" c1.modules_loaded with
  | Except.error e => (c1, Except.error e)
  | Except.ok s1 =>
      match pyStrAddNat (s1 ++ " out of ") nb_modules with
      | Except.error e => (c1, Except.error e)
      | Except.ok _ =>
          if nb_modules ≤ c1.modules_loaded then
            match c1.scan_callback with
            | none => (c1, Except.error (PyErr.typeError "NoneType object is not callable"))
            | some cb => ({ c1 with fired := c1.fired ++ [cb] }, Except.ok ())
          else (c1, Except.ok ())

/-- The nested scan_finished closure (controller.py lines 114-121): sleep, log,
then call module.get_name(module_loaded) for every module in
self._modules.values(). It mutates nothing; the second component is the list
of modules for which a name-resolution request carrying the module_loaded
continuation was issued. -/
def scan_finished (c : Controller) : Controller × List Module :=
  (c, c.modules.map Prod.snd)

/-- The asynchronous events that can reach the controller after a scan started:
a decoded message, a name-resolution completion (module_loaded), the
address-255 send completion (scan_finished), subscribe/unsubscribe calls and
parser feeds. -/
inductive Event where
  | deliver (moduleRegistry : List String) (m : Message)
  | nameLoaded
  | busScanDone
  | addSub (s : Nat)
  | dropSub (s : Nat)
  | feed (v : PyVal)

/-- State reached after one event (exceptions propagate to the event's caller,
leaving the state the operation had produced up to the raise). -/
def stepEvent (c : Controller) (e : Event) : Controller :=
  match e with
  | Event.deliver reg m => (new_message reg c m).1
  | Event.nameLoaded => (module_loaded c).1
  | Event.busScanDone => (scan_finished c).1
  | Event.addSub s => subscribe c s
  | Event.dropSub s => (unsubscribe c s).1
  | Event.feed v => (feedParser c v).1

/-- State reached after a sequence of events. -/
def runEvents (c : Controller) (es : List Event) : Controller :=
  es.foldl stepEvent c

/-- k successive subscribe calls for the same observer. -/
def subscribeN (c : Controller) (s : Nat) : Nat → Controller
  | 0 => c
  | k + 1 => subscribe (subscribeN c s k) s

/-- A controller with a single subscriber, observer 5. -/
def oneSubController : Controller :=
  { initController with subscribers := [5] }

/-- The controller after a recognized VMB4RYLD response for address 1 followed
by a recognized VMB4RYNO response for the same address 1. -/
def reannounced : Controller :=
  (new_message ["VMB4RYLD", "VMB4RYNO"]
    ((new_message ["VMB4RYLD", "VMB4RYNO"] initController
        (Message.moduleType "VMB4RYLD" 1 1)).1)
    (Message.moduleType "VMB4RYNO" 2 1)).1

/-- A controller holding one registered module. -/
def oneModuleController : Controller :=
  { initController with modules := [(1, Module.mk 1 "VMB4RYLD" 1)] }

/-- Claim C1: the scan-completion callback fires exactly once per session, when
the loaded-count reaches the registered-module count, and immediately when the
Registry is empty at name-resolution entry. The code cannot do this:
module_loaded always raises TypeError on its str + int logging concatenation
before the firing comparison, leaving the fired transcript untouched, and
scan_finished issues a module_loaded continuation only per registered module,
so with an empty Registry nothing can ever fire the callback. -/
theorem C1_completion_callback_never_fires (c : Controller) :
    (module_loaded c).2 = Except.error (PyErr.typeError concatTypeErrMsg) ∧
    (module_loaded c).1.fired = c.fired ∧
    (scan_finished c).2 = c.modules.map Prod.snd :=
  ⟨rfl, rfl, rfl⟩

/-- Claim C2 counterexample: after scan(None) a scan session is active (256
requests are in flight), yet a second scan() succeeds and sends 256 further
requests, because the session guard is the stored callback's truthiness and
None is falsy. -/
theorem C2_counterexample :
    (scan ((scan initController none).1) (some 7)).2 = Except.ok () ∧
    ((scan ((scan initController none).1) (some 7)).1).sent.length = 512 := by
  refine ⟨rfl, ?_⟩
  simp [scan, initController]

/-- Claim C2 (amended): calling scan, with any callback argument, while a scan
session whose stored callback is truthy (non-none) is active raises the
already-in-progress exception, sends nothing and leaves the state unchanged; a
session stored with callback none does not trip the guard. -/
theorem C2_scan_busy (c : Controller) (cb : Nat) (arg : Option Nat)
    (h : c.scan_callback = some cb) :
    scan c arg = (c, Except.error (PyErr.exception scanBusyMsg)) := by
  simp [scan, h]

/-- Claim C2 witness: the amended statement at a session started with
callback 3 and a second call with callback none. -/
theorem C2_scan_busy_witness :
    ((scan initController (some 3)).1).scan_callback = some 3 ∧
    scan ((scan initController (some 3)).1) none =
      ((scan initController (some 3)).1, Except.error (PyErr.exception scanBusyMsg)) :=
  ⟨rfl, C2_scan_busy ((scan initController (some 3)).1) 3 none rfl⟩

/-- Claim C3 counterexample: a module-type response whose decoded name is
Unknown is dropped by the early return before the subscriber loop, so the
subscribed observer 5 receives nothing for it. -/
theorem C3_counterexample :
    oneSubController.subscribers = [5] ∧
    (new_message [] oneSubController (Message.moduleType "Unknown" 99 1)).2 = [] :=
  ⟨rfl, rfl⟩

/-- Claim C3 (amended): every decoded message except a module-type response
whose decoded name is Unknown is delivered unmodified to every current
subscriber in subscription order; unrecognized module-type responses are
discarded before notification (unsupported ones are still delivered). -/
theorem C3_delivery_in_order (moduleRegistry : List String) (c : Controller)
    (msg : Message) (h : ∀ t a, msg ≠ Message.moduleType "Unknown" t a) :
    (new_message moduleRegistry c msg).2 = c.subscribers.map (fun s => (s, msg)) := by
  cases msg with
  | moduleType name t a =>
      have hn : name ≠ "Unknown" := fun hne => h t a (by rw [hne])
      by_cases hm : name ∈ moduleRegistry <;> simp [new_message, hn, hm]
  | busActive => rfl
  | receiveReady => rfl
  | busOff => rfl
  | receiveBufferFull => rfl
  | other tag => rfl

/-- Claim C3 witness: a bus-active message reaches observer 5 once, carried
unmodified. -/
theorem C3_delivery_witness :
    (new_message [] oneSubController Message.busActive).2 =
      [(5, Message.busActive)] := by
  have h := C3_delivery_in_order [] oneSubController Message.busActive
    (fun t a hne => Message.noConfusion hne)
  simpa [oneSubController, initController] using h

/-- Claim C4 counterexample: after re-announcing address 1 with the second
recognized type VMB4RYNO, the Registry maps 1 to the module built from the
later response, not to the original VMB4RYLD module: dict assignment
overwrites, so first-write-wins is false. -/
theorem C4_counterexample :
    reannounced.modules = [(1, Module.mk 2 "VMB4RYNO" 1)] ∧
    Module.mk 2 "VMB4RYNO" 1 ≠ Module.mk 1 "VMB4RYLD" 1 :=
  ⟨rfl, by decide⟩

/-- Lookup after Python dict assignment yields the assigned value. -/
theorem dictLookup_dictSet (d : List (Nat × Module)) (a : Nat) (m : Module) :
    dictLookup (dictSet d a m) a = some m := by
  induction d with
  | nil => simp [dictSet, dictLookup]
  | cons hd tl ih =>
      obtain ⟨k, v⟩ := hd
      by_cases hk : k = a
      · simp [dictSet, dictLookup, hk]
      · simp [dictSet, dictLookup, hk, ih]

/-- Claim C4 (amended): when a recognized, supported module-type response
arrives for an address already present in the Registry, the stored entry is
replaced: the address maps to the new Module built from the later response
(last-write-wins). -/
theorem C4_last_write_wins (moduleRegistry : List String) (c : Controller)
    (name : String) (t a : Nat)
    (h1 : name ≠ "Unknown") (h2 : name ∈ moduleRegistry) :
    dictLookup ((new_message moduleRegistry c
        (Message.moduleType name t a)).1).modules a =
      some (Module.mk t name a) := by
  simp [new_message, h1, h2, dictLookup_dictSet]

/-- Claim C4 witness: the amended statement at a controller already holding a
VMB4RYLD module at address 1, re-announced as VMB4RYNO. -/
theorem C4_last_write_wins_witness :
    "VMB4RYNO" ≠ "Unknown" ∧ "VMB4RYNO" ∈ ["VMB4RYLD", "VMB4RYNO"] ∧
    dictLookup ((new_message ["VMB4RYLD", "VMB4RYNO"] oneModuleController
        (Message.moduleType "VMB4RYNO" 2 1)).1).modules 1 =
      some (Module.mk 2 "VMB4RYNO" 1) :=
  ⟨by decide, by decide,
    C4_last_write_wins ["VMB4RYLD", "VMB4RYNO"] oneModuleController "VMB4RYNO" 2 1
      (by decide) (by decide)⟩

/-- No single event changes the stored scan callback: new_message,
module_loaded, scan_finished, subscribe, unsubscribe and feedParser all leave
scan_callback as it was; in particular nothing ever resets it to none. -/
theorem stepEvent_scan_callback (c : Controller) (e : Event) :
    (stepEvent c e).scan_callback = c.scan_callback := by
  cases e with
  | deliver reg m =>
      cases m with
      | moduleType name t a =>
          by_cases hn : name = "Unknown"
          · simp [stepEvent, new_message, hn]
          · by_cases hm : name ∈ reg <;> simp [stepEvent, new_message, hn, hm]
      | busActive => rfl
      | receiveReady => rfl
      | busOff => rfl
      | receiveBufferFull => rfl
      | other tag => rfl
  | nameLoaded => rfl
  | busScanDone => rfl
  | addSub s => rfl
  | dropSub s =>
      cases h : pyListRemove c.subscribers s <;> simp [stepEvent, unsubscribe, h]
  | feed v => cases v <;> rfl

/-- The scan callback survives any sequence of events. -/
theorem runEvents_scan_callback (es : List Event) (c : Controller) :
    (runEvents c es).scan_callback = c.scan_callback := by
  induction es generalizing c with
  | nil => rfl
  | cons e rest ih =>
      show (runEvents (stepEvent c e) rest).scan_callback = c.scan_callback
      rw [ih, stepEvent_scan_callback]

/-- Claim C5: the session should be destroyed (callback reset to none) once
every registered module finished loading, so that a later scan can succeed.
The code never resets self.__scan_callback: once a session stores a truthy
callback, whatever events follow (message deliveries, name-load completions,
the bus-scan-done signal, subscriptions, feeds), every later scan call still
raises the already-in-progress exception. -/
theorem C5_session_never_cleared (c : Controller) (cb : Nat) (es : List Event)
    (arg : Option Nat) (h : c.scan_callback = some cb) :
    scan (runEvents c es) arg =
      (runEvents c es, Except.error (PyErr.exception scanBusyMsg)) := by
  have hp : (runEvents c es).scan_callback = some cb := by
    rw [runEvents_scan_callback, h]
  simp [scan, hp]

/-- Claim C5 witness: after scan with callback 1 and a name-load completion
event, a second scan still raises. -/
theorem C5_session_never_cleared_witness :
    ((scan initController (some 1)).1).scan_callback = some 1 ∧
    scan (runEvents ((scan initController (some 1)).1) [Event.nameLoaded]) none =
      (runEvents ((scan initController (some 1)).1) [Event.nameLoaded],
        Except.error (PyErr.exception scanBusyMsg)) :=
  ⟨rfl, C5_session_never_cleared ((scan initController (some 1)).1) 1
      [Event.nameLoaded] none rfl⟩

/-- Claim C6: get_modules should return the registered modules whose type name
is listed for the category. Instead, for every non-empty Registry and every
category, the first loop iteration calls get_module_name() on an (address,
module) tuple produced by items() and raises AttributeError. -/
theorem C6_get_modules_raises (c : Controller) (category : String)
    (h : c.modules ≠ []) :
    get_modules c category = Except.error (PyErr.attributeError tupleAttrMsg) := by
  cases hm : c.modules with
  | nil => exact absurd hm h
  | cons hd tl =>
      simp [get_modules, hm, get_modules_loop, items_get_module_name]

/-- Claim C6 witness: one registered VMB4RYLD module and the category switch,
whose table entry lists VMB4RYLD, still raise. -/
theorem C6_get_modules_raises_witness :
    oneModuleController.modules ≠ [] ∧
    get_modules oneModuleController "switch" =
      Except.error (PyErr.attributeError tupleAttrMsg) :=
  ⟨by decide, C6_get_modules_raises oneModuleController "switch" (by decide)⟩

/-- Claim C7 counterexample: with an empty Registry the loop body never runs,
so the category subscript is never evaluated and get_modules returns an empty
list for the unknown category bogus instead of failing. -/
theorem C7_counterexample :
    get_modules initController "bogus" = Except.ok [] ∧
    assocLookup MODULE_CATEGORIES "bogus" = none :=
  ⟨rfl, rfl⟩

/-- Claim C7 (amended): with an empty Registry, get_modules returns the empty
list without error for every category name, known or unknown; an unknown
category can only produce an error when the Registry is non-empty, because the
table subscript is evaluated inside the loop body. -/
theorem C7_empty_registry_no_error (c : Controller) (category : String)
    (h : c.modules = []) :
    get_modules c category = Except.ok [] := by
  simp [get_modules, h, get_modules_loop]

/-- Claim C7 witness: the amended statement on a fresh controller and the
unknown category bogus. -/
theorem C7_empty_registry_no_error_witness :
    initController.modules = [] ∧
    get_modules initController "missing" = Except.ok [] :=
  ⟨rfl, C7_empty_registry_no_error initController "missing" rfl⟩

/-- list.remove raises ValueError when the element is absent. -/
theorem pyListRemove_not_mem (l : List Nat) (x : Nat) (h : x ∉ l) :
    pyListRemove l x = Except.error (PyErr.valueError removeErrMsg) := by
  induction l with
  | nil => rfl
  | cons a rest ih =>
      have hax : ¬ a = x := fun hax => h (hax ▸ List.mem_cons_self a rest)
      have hrest : x ∉ rest := fun hr => h (List.mem_cons_of_mem a hr)
      simp [pyListRemove, hax, ih hrest]

/-- Claim C8 counterexample: unsubscribing observer 3, never subscribed, on a
fresh controller raises ValueError instead of being a no-op. -/
theorem C8_counterexample :
    (unsubscribe initController 3).2 =
      Except.error (PyErr.valueError removeErrMsg) :=
  rfl

/-- Claim C8 (amended): unsubscribing an observer that is not currently
subscribed raises a ValueError from list.remove; the subscriber list (and thus
later delivery) is unchanged, but the call is a failure, not a no-op. -/
theorem C8_unsubscribe_missing_raises (c : Controller) (s : Nat)
    (h : s ∉ c.subscribers) :
    unsubscribe c s = (c, Except.error (PyErr.valueError removeErrMsg)) := by
  simp [unsubscribe, pyListRemove_not_mem c.subscribers s h]

/-- Claim C8 witness: the amended statement with observer 3 against the
controller whose only subscriber is 5. -/
theorem C8_unsubscribe_missing_raises_witness :
    (3 : Nat) ∉ oneSubController.subscribers ∧
    unsubscribe oneSubController 3 =
      (oneSubController, Except.error (PyErr.valueError removeErrMsg)) :=
  ⟨by decide, C8_unsubscribe_missing_raises oneSubController 3 (by decide)⟩

/-- Claim C9: feed accepts only bytes: any non-bytes argument fails the
isinstance assert before anything reaches the parser, and a bytes chunk is
forwarded to the parser unchanged. -/
theorem C9_feed_bytes_only (c : Controller) (v : PyVal) :
    (∀ b, v = PyVal.bytes b →
      feedParser c v =
        ({ c with parser_fed := c.parser_fed ++ [b] }, Except.ok ())) ∧
    ((∀ b, v ≠ PyVal.bytes b) →
      feedParser c v =
        (c, Except.error (PyErr.assertionError "isinstance(data, bytes)"))) := by
  cases v with
  | bytes b =>
      refine ⟨fun b2 hb => ?_, fun hne => absurd rfl (hne b)⟩
      cases hb
      rfl
  | str s => exact ⟨fun b hb => PyVal.noConfusion hb, fun _ => rfl⟩
  | int n => exact ⟨fun b hb => PyVal.noConfusion hb, fun _ => rfl⟩
  | pynone => exact ⟨fun b hb => PyVal.noConfusion hb, fun _ => rfl⟩

/-- Claim C9 witness: the bytes chunk 1, 2 is forwarded unchanged, and a str
argument is rejected by the assert. -/
theorem C9_feed_bytes_only_witness :
    feedParser initController (PyVal.bytes [1, 2]) =
      ({ initController with parser_fed := initController.parser_fed ++ [[1, 2]] },
        Except.ok ()) ∧
    feedParser initController (PyVal.str "abc") =
      (initController, Except.error (PyErr.assertionError "isinstance(data, bytes)")) :=
  ⟨(C9_feed_bytes_only initController (PyVal.bytes [1, 2])).1 [1, 2] rfl,
    (C9_feed_bytes_only initController (PyVal.str "abc")).2
      (fun _ hb => PyVal.noConfusion hb)⟩

/-- k subscribe calls append k copies of the observer. -/
theorem subscribeN_subscribers (c : Controller) (s : Nat) (k : Nat) :
    (subscribeN c s k).subscribers = c.subscribers ++ List.replicate k s := by
  induction k with
  | zero => simp [subscribeN]
  | succ k ih =>
      simp [subscribeN, subscribe, ih, List.replicate_succ']

/-- Claim C10: subscribe never de-duplicates: k subscriptions of the same
fresh observer append k entries, and a message that reaches the dispatch loop
(any message other than an Unknown-named module-type response, which returns
early) is delivered to that observer exactly k times. -/
theorem C10_no_dedup (c : Controller) (s : Nat) (k : Nat)
    (moduleRegistry : List String) (msg : Message)
    (h1 : s ∉ c.subscribers)
    (h2 : ∀ t a, msg ≠ Message.moduleType "Unknown" t a) :
    (subscribeN c s k).subscribers = c.subscribers ++ List.replicate k s ∧
    ((new_message moduleRegistry (subscribeN c s k) msg).2.count (s, msg)) = k := by
  refine ⟨subscribeN_subscribers c s k, ?_⟩
  have hdel : (new_message moduleRegistry (subscribeN c s k) msg).2 =
      (subscribeN c s k).subscribers.map (fun x => (x, msg)) := by
    cases msg with
    | moduleType name t a =>
        have hn : name ≠ "Unknown" := fun hne => h2 t a (by rw [hne])
        by_cases hm : name ∈ moduleRegistry <;> simp [new_message, hn, hm]
    | busActive => rfl
    | receiveReady => rfl
    | busOff => rfl
    | receiveBufferFull => rfl
    | other tag => rfl
  rw [hdel, subscribeN_subscribers, List.map_append, List.count_append,
    List.map_replicate]
  have h0 : ((c.subscribers.map (fun x => (x, msg))).count (s, msg)) = 0 := by
    rw [List.count_eq_zero]
    intro hmem
    obtain ⟨x, hx, hxy⟩ := List.mem_map.mp hmem
    have hxs : x = s := congrArg Prod.fst hxy
    exact h1 (hxs ▸ hx)
  rw [h0, List.count_replicate_self]
  exact Nat.zero_add k

/-- Claim C10 witness: observer 2 subscribed three times on a fresh controller
receives a bus-active message three times. -/
theorem C10_no_dedup_witness :
    (2 : Nat) ∉ initController.subscribers ∧
    ((subscribeN initController 2 3).subscribers =
        initController.subscribers ++ List.replicate 3 2 ∧
      ((new_message [] (subscribeN initController 2 3) Message.busActive).2.count
        (2, Message.busActive)) = 3) :=
  ⟨by decide, C10_no_dedup initController 2 3 [] Message.busActive (by decide)
      (fun t a hne => Message.noConfusion hne)⟩

end Velbus
